import Mathlib

/-!
Verification of the wallet-connect-skill transaction-construction engine.

The definitions below are a shallow embedding of the repository's
transaction-construction code (scripts/lib/send-tx.mjs, scripts/lib/helpers.mjs,
src/commands/tokens.ts, src/storage.ts, src/commands/balance.ts).
JavaScript strings become Lean strings, JS BigInt values become Int, human
amounts (decimal strings fed to parseFloat) are modelled as exact rationals,
and JS Math.round of a rational q is the floor of q + 1/2.  Code that reports
an error and exits, or throws, is modelled with Except.  External RPC results
(the account-info probe and the recent-prioritization-fee fetch) become
explicit parameters of the encoders; the associated-token-address derivation
of the external spl-token library is modelled as an explicit deterministic
injective function of (mint, owner).
-/

/-- Digits of n in base 16, most significant first, lowercase letters, as
produced by the JavaScript BigInt.prototype.toString with radix 16; zero
renders as the single digit 0. -/
def toHexDigits (n : Nat) : List Char :=
  if _h : n < 16 then [Nat.digitChar n]
  else toHexDigits (n / 16) ++ [Nat.digitChar (n % 16)]
  termination_by n
  decreasing_by exact Nat.div_lt_self (by omega) (by omega)

/-- Hex rendering of a natural number, lowercase, no 0x prefix. -/
def natToHex (n : Nat) : String :=
  String.mk (toHexDigits n)

/-- Hex rendering of a JS BigInt: a minus sign precedes the digits of the
absolute value for negative inputs. -/
def intToHex (i : Int) : String :=
  if i < 0 then "-" ++ natToHex i.natAbs else natToHex i.toNat

/-- JavaScript Math.round on an exact rational: floor of q + 1/2. -/
def jsRound (q : ℚ) : ℤ :=
  (q + 1 / 2).floor

/-- JavaScript String.prototype.padStart with a single pad character:
left-pad with copies of c up to length n; never truncates. -/
def padStart (s : String) (n : Nat) (c : Char) : String :=
  String.mk (List.replicate (n - s.length) c ++ s.data)

/-- Remove the first occurrence (if any) of the non-empty pattern from the
character list, scanning left to right; the list semantics of the JS call
s.replace of a literal pattern by the empty string. -/
def stripFirst (pat : List Char) : List Char → List Char
  | [] => []
  | c :: cs =>
    if pat.isPrefixOf (c :: cs) then (c :: cs).drop pat.length
    else c :: stripFirst pat cs

/-- JS s.replace of the literal non-empty pattern pat by the empty string
(only the first occurrence is replaced). -/
def jsReplaceFirst (s pat : String) : String :=
  String.mk (stripFirst pat.data s.data)

/-- JS s.startsWith of the pattern p, on the underlying character lists. -/
def jsStartsWith (s p : String) : Bool :=
  p.data.isPrefixOf s.data

/-- JS String.prototype.split on a one-character separator, on the
underlying character lists; always returns at least one (possibly empty)
segment, like the JS builtin. -/
def splitOnChar (sep : Char) : List Char → List (List Char)
  | [] => [[]]
  | c :: cs =>
    let r := splitOnChar sep cs
    if c = sep then [] :: r
    else
      match r with
      | [] => [[c]]
      | h :: t => (c :: h) :: t

/-! ### Token registry (src/commands/tokens.ts, scripts/lib/tokens.mjs) -/

/-- TokenConfig of src/types.ts: name, decimals and the per-chain contract or
mint address record (modelled as an association list). -/
structure TokenConfig where
  name : String
  decimals : Nat
  addresses : List (String × String)
deriving DecidableEq, Repr

/-- The static TOKENS registry of src/commands/tokens.ts, verbatim. -/
def TOKENS : List (String × TokenConfig) := [
  ("USDC", { name := "USD Coin", decimals := 6, addresses := [
    ("eip155:1", "0xA0b86991c6218b36c1d19D4a2e9Eb0cE3606eB48"),
    ("eip155:8453", "0x833589fCD6eDb6E08f4c7C32D4f71b54bdA02913"),
    ("eip155:42161", "0xaf88d065e77c8cC2239327C5EDb3A432268e5831"),
    ("eip155:10", "0x0b2C639c533813f4Aa9D7837CAf62653d097Ff85"),
    ("eip155:137", "0x3c499c542cEF5E3811e1192ce70d8cC03d5c3359"),
    ("solana:5eykt4UsFv8P8NJdTREpY1vzqKqZKvdp",
      "EPjFWdd5AufqSSqeM2qN1xzybapC8G4wEGGkZwyTDt1v")] }),
  ("USDT", { name := "Tether USD", decimals := 6, addresses := [
    ("eip155:1", "0xdAC17F958D2ee523a2206206994597C13D831ec7"),
    ("eip155:10", "0x94b008aA00579c1307B0EF2c499aD98a8ce58e58"),
    ("eip155:137", "0xc2132D05D31c914a87C6611C10748AEb04B58e8F"),
    ("eip155:56", "0x55d398326f99059fF775485246999027B3197955"),
    ("solana:5eykt4UsFv8P8NJdTREpY1vzqKqZKvdp",
      "Es9vMFrzaCERmJfrF4H2FYD4KCoNkY11McCe8BenwNYB")] }),
  ("WETH", { name := "Wrapped Ether", decimals := 18, addresses := [
    ("eip155:1", "0xC02aaA39b223FE8D0A0e5C4F27eAD9083C756Cc2"),
    ("eip155:42161", "0x82aF49447D8a07e3bd95BD0d56f35241523fBab1"),
    ("eip155:8453", "0x4200000000000000000000000000000000000006"),
    ("eip155:10", "0x4200000000000000000000000000000000000006"),
    ("eip155:137", "0x7ceB23fD6bC0adD59E62ac25578270cFf1b9f619")] }),
  ("DAI", { name := "Dai Stablecoin", decimals := 18, addresses := [
    ("eip155:1", "0x6B175474E89094C44Da98b954EedeAC495271d0F"),
    ("eip155:42161", "0xDA10009cBd5D07dd0CeCc66161FC93D7c9000da1"),
    ("eip155:8453", "0x50c5725949A6F0c72E6C4a641F24049A917DB0Cb"),
    ("eip155:10", "0xDA10009cBd5D07dd0CeCc66161FC93D7c9000da1"),
    ("eip155:137", "0x8f3Cf7ad23Cd3CaDbD9735AFf958023239c6A063")] }),
  ("WBTC", { name := "Wrapped Bitcoin", decimals := 8, addresses := [
    ("eip155:1", "0x2260FAC5E5542a773Aa44fBCfeDf7C193bc2C599"),
    ("eip155:42161", "0x2f2a2543B76A4166549F7aaB2e75Bef0aefC5B0f"),
    ("eip155:10", "0x68f180fcCe6836688e9084f035309E29Bf0A2095"),
    ("eip155:137", "0x1BFD67037B42Cf73acF2047067bd4F2C47D9BfD6")] })]

/-- getTokenAddress of tokens.ts: the registered address of the symbol on the
chain, or null (a missing key and the JS-falsy empty case both yield null;
all registry values are non-empty literals). -/
def getTokenAddress (symbol chainId : String) : Option String :=
  match TOKENS.lookup symbol with
  | some t => t.addresses.lookup chainId
  | none => none

/-- getTokenDecimals of tokens.ts: the registered decimals, defaulting to 18
for an unknown symbol. -/
def getTokenDecimals (symbol : String) : Nat :=
  match TOKENS.lookup symbol with
  | some t => t.decimals
  | none => 18

/-! ### Account lookup (scripts/lib/helpers.mjs, src/helpers.ts) -/

/-- The JS expression accounts[0] || null: the first element, with an empty
(JS-falsy) string collapsing to null. -/
def jsFirstOrNull (accounts : List String) : Option String :=
  match accounts with
  | [] => none
  | a :: _ => if a = "" then none else some a

/-- findAccount of helpers: with no (or a JS-falsy empty) hint, the first
account; otherwise the first account a with a.startsWith of hint ++ colon or
of hint itself; failing that, the first account whose namespace segment (the
hint up to the first colon) followed by a colon is a prefix.  The matched
strings are necessarily non-empty (the search patterns are non-empty and the
hint is non-empty in that branch), so the JS truthiness tests on them are
identities and are omitted. -/
def findAccount (accounts : List String) (chainHint : Option String) :
    Option String :=
  match chainHint with
  | none => jsFirstOrNull accounts
  | some hint =>
    if hint = "" then jsFirstOrNull accounts
    else
      match accounts.find? (fun a =>
          jsStartsWith a (hint ++ ":") || jsStartsWith a hint) with
      | some a => some a
      | none =>
        let ns := String.mk ((splitOnChar ':' hint.data).headD [])
        accounts.find? (fun a => jsStartsWith a (ns ++ ":"))

/-- Modelled from the spec: the parseAccountId contract of the external
walletconnect utils used by parseAccount in helpers — a compound account
identifier splits into namespace, reference, and the address, the address
being the remainder after the first two colon-delimited segments; fewer than
three segments is malformed. -/
def parseAccount (s : String) : Option (String × String × String) :=
  match (splitOnChar ':' s.data).map String.mk with
  | ns :: ref :: rest =>
    if rest.isEmpty then none
    else some (ns, ref, String.intercalate ":" rest)
  | _ => none

/-- The namespace:reference chain id of a parsed account string, or the empty
string when malformed. -/
def accountChainId (s : String) : String :=
  match parseAccount s with
  | some p => p.1 ++ ":" ++ p.2.1
  | none => ""

/-! ### EVM transfer encoder (sendEvm in scripts/lib/send-tx.mjs) -/

/-- The transaction object built by sendEvm: from, to, and either a value
field (native transfer) or a data field (token-transfer calldata). -/
structure EvmTx where
  fromAddr : String
  «to» : String
  value : Option String
  data : Option String
deriving DecidableEq, Repr

/-- The transaction-construction core of sendEvm in send-tx.mjs.  The token
branch is taken when args.token is present, JS-truthy, and not the literal
ETH; it requires a registered token address for the chain, scales the amount
by the registered decimals, and concatenates selector, left-padded recipient
(with a leading 0x stripped) and left-padded amount as calldata addressed to
the token contract.  The other branch encodes a native transfer: the amount
scaled by 1e18 as the hex value field, addressed to the recipient. -/
def sendEvmTx (fromAddr resolvedTo : String) (token : Option String)
    (amount : ℚ) (chain : String) : Except String EvmTx :=
  match token with
  | some t =>
    if t = "" ∨ t = "ETH" then
      let weiAmount := jsRound (amount * 10 ^ 18)
      .ok { fromAddr := fromAddr, «to» := resolvedTo,
            value := some ("0x" ++ intToHex weiAmount), data := none }
    else
      match getTokenAddress t chain with
      | none => .error ("Token " ++ t ++ " not supported on " ++ chain)
      | some tokenAddr =>
        let decimals := getTokenDecimals t
        let amount' := jsRound (amount * 10 ^ decimals)
        let toAddr := padStart (jsReplaceFirst resolvedTo "0x") 64 '0'
        let amountHex := padStart (intToHex amount') 64 '0'
        .ok { fromAddr := fromAddr, «to» := tokenAddr, value := none,
              data := some ("0xa9059cbb" ++ toAddr ++ amountHex) }
  | none =>
    let weiAmount := jsRound (amount * 10 ^ 18)
    .ok { fromAddr := fromAddr, «to» := resolvedTo,
          value := some ("0x" ++ intToHex weiAmount), data := none }

/-! ### Solana transfer encoder (sendSolana in scripts/lib/send-tx.mjs) -/

/-- The instructions sendSolana can emit, named after the library calls that
build them. -/
inductive SolInstr where
  | createAssociatedTokenAccountInstruction
      (payer ata owner mint : String)
  | createTransferInstruction (source destination owner : String)
      (amount : Int)
  | systemTransfer (fromPubkey toPubkey : String) (lamports : Int)
  | setComputeUnitPrice (microLamports : Int)
deriving DecidableEq, Repr

/-- The SOLANA_RPC endpoint table of send-tx.mjs. -/
def SOLANA_RPC : List (String × String) :=
  [("solana:5eykt4UsFv8P8NJdTREpY1vzqKqZKvdp",
    "https://api.mainnet-beta.solana.com")]

/-- LAMPORTS_PER_SOL of the solana web3 library: 1e9. -/
def LAMPORTS_PER_SOL : ℚ := 10 ^ 9

/-- Modelled deterministic associated-token-address derivation standing in
for getAssociatedTokenAddressSync of the external spl-token library: the
derivation is an opaque injective function of (mint, owner). -/
def getAssociatedTokenAddressSync (mint owner : String) : String :=
  "ata(" ++ mint ++ "," ++ owner ++ ")"

/-- The instruction-list construction of sendSolana before the priority-fee
step: requires a known RPC endpoint for the chain; with a JS-truthy token
argument other than the literal SOL it requires a registered mint, probes the
recipient's associated token account (the toAtaExists parameter is the
account-info RPC answer) and emits the conditional account-creation
instruction followed by the token transfer; otherwise it emits one native
system transfer of the amount scaled by LAMPORTS_PER_SOL. -/
def solanaBaseInstrs (fromAddr toAddr : String) (token : Option String)
    (amount : ℚ) (chain : String) (toAtaExists : Bool) :
    Except String (List SolInstr) :=
  match SOLANA_RPC.lookup chain with
  | none => .error ("No RPC for chain " ++ chain)
  | some _ =>
    match token with
    | some t =>
      if t = "" ∨ t = "SOL" then
        .ok [.systemTransfer fromAddr toAddr
              (jsRound (amount * LAMPORTS_PER_SOL))]
      else
        match getTokenAddress t chain with
        | none => .error ("Token " ++ t ++ " not supported on " ++ chain)
        | some mintAddr =>
          let decimals := getTokenDecimals t
          let amount' := jsRound (amount * 10 ^ decimals)
          let fromAta := getAssociatedTokenAddressSync mintAddr fromAddr
          let toAta := getAssociatedTokenAddressSync mintAddr toAddr
          let creation :=
            if toAtaExists then []
            else [SolInstr.createAssociatedTokenAccountInstruction
                    fromAddr toAta toAddr mintAddr]
          .ok (creation ++
            [.createTransferInstruction fromAta toAta fromAddr amount'])
    | none =>
      .ok [.systemTransfer fromAddr toAddr
            (jsRound (amount * LAMPORTS_PER_SOL))]

/-- The priority-fee step of sendSolana: on a successful recent-fee fetch,
keep the strictly positive fees, sort ascending, and prepend a
compute-unit-price instruction at the sorted index length / 2 when any fee
remains; on a failed fetch (the catch branch) leave the instructions
unchanged. -/
def addPriorityFee (instructions : List SolInstr)
    (feesResult : Except Unit (List Int)) : List SolInstr :=
  match feesResult with
  | .error _ => instructions
  | .ok recentFees =>
    let feeValues :=
      (recentFees.filter (fun f => decide (0 < f))).insertionSort (· ≤ ·)
    if h : 0 < feeValues.length then
      SolInstr.setComputeUnitPrice
          (feeValues.get ⟨feeValues.length / 2, Nat.div_lt_self h one_lt_two⟩)
        :: instructions
    else instructions

/-- sendSolana's full instruction list: the base construction followed by the
best-effort priority-fee prepend. -/
def sendSolanaInstrs (fromAddr toAddr : String) (token : Option String)
    (amount : ℚ) (chain : String) (toAtaExists : Bool)
    (feesResult : Except Unit (List Int)) : Except String (List SolInstr) :=
  (solanaBaseInstrs fromAddr toAddr token amount chain toAtaExists).map
    (fun instructions => addPriorityFee instructions feesResult)

/-- The median as worded by the spec: sort ascending, middle element for odd
counts, the LOWER of the two middle elements for even counts — the element at
index (length - 1) / 2 — defaulting to 0 on the empty list. -/
def medianLowerSpec (l : List Int) : Int :=
  (l.insertionSort (· ≤ ·)).getD ((l.length - 1) / 2) 0

/-! ### Bounded request gateway (requestWithTimeout in helpers) and the
orchestrator's catch (cmdSendTx in send-tx.mjs) -/

/-- The timeout rejection message of requestWithTimeout. -/
def timeoutMessage : String :=
  "Request timed out after 5 minutes — user did not respond"

/-- Discrete-time model of requestWithTimeout's race: the underlying request
either never settles (none) or settles at time t with a success or a
rejection; the race returns the request's own outcome when it settles
strictly before the timeout fires at timeoutMs, and the timeout error
otherwise. -/
def requestWithTimeout (reqSettle : Option (Nat × Except String String))
    (timeoutMs : Nat) : Except String String :=
  match reqSettle with
  | none => .error timeoutMessage
  | some (t, r) => if t < timeoutMs then r else .error timeoutMessage

/-- The time at which the race of requestWithTimeout settles and the poll
interval is cleared. -/
def settleTime (reqSettle : Option (Nat × Except String String))
    (timeoutMs : Nat) : Nat :=
  match reqSettle with
  | none => timeoutMs
  | some (t, _) => min t timeoutMs

/-- The times at which the liveness poll interval of requestWithTimeout
fires: every positive multiple of pollIntervalMs strictly before the race
settles and the interval is cleared. -/
def livenessEmissions (pollIntervalMs settle : Nat) : List Nat :=
  if pollIntervalMs = 0 then []
  else
    ((List.range (settle / pollIntervalMs + 1)).filter (fun k =>
        decide (0 < k) && decide (k * pollIntervalMs < settle))).map
      (fun k => k * pollIntervalMs)

/-- The result object printed by cmdSendTx: a status and, in the rejected
case, the underlying error message. -/
structure TxReport where
  status : String
  errorMsg : Option String
deriving DecidableEq, Repr

/-- The try/catch of cmdSendTx: a successful send keeps its own report, any
error thrown at or after submission is caught and reported as status
rejected with the underlying message. -/
def cmdSendTxCatch (r : Except String TxReport) : TxReport :=
  match r with
  | .ok rep => rep
  | .error e => { status := "rejected", errorMsg := some e }

/-! ### Session persistence (loadSessions in src/storage.ts) -/

/-- Session of src/types.ts (the fields the registry persists). -/
structure Session where
  accounts : List String
  peerName : String
  authenticated : Bool
  createdAt : String
  updatedAt : Option String
deriving Repr

/-- The flat session registry: a map from session topic to Session. -/
abbrev Sessions : Type := List (String × Session)

/-- The state of the sessions file as seen by loadSessions. -/
inductive FileState where
  | absent
  | present (content : String)

/-- loadSessions of src/storage.ts: an absent file yields the empty registry;
otherwise the file content is JSON-parsed, and the catch branch turns any
parse failure into the empty registry.  The external JSON.parse builtin is
the explicit parse parameter, returning none exactly when it would throw. -/
def loadSessions (fs : FileState) (parse : String → Option Sessions) :
    Sessions :=
  match fs with
  | .absent => []
  | .present content =>
    match parse content with
    | some sessions => sessions
    | none => []

/-! ### Per-chain native symbols (EVM_CHAINS in src/commands/balance.ts) -/

/-- The native-currency symbol column of the EVM_CHAINS table of the balance
command: the repository's own record of each chain's native symbol. -/
def EVM_CHAINS_native : List (String × String) :=
  [("eip155:1", "ETH"), ("eip155:42161", "ETH"), ("eip155:8453", "ETH"),
   ("eip155:10", "ETH"), ("eip155:137", "POL"), ("eip155:56", "BNB")]

/-! ### Claim theorems -/

theorem exceptMap_ok {ε α β : Type} (f : α → β) (a : α) :
    (Except.ok a : Except ε α).map f = .ok (f a) := rfl

theorem exceptMap_error {ε α β : Type} (f : α → β) (e : ε) :
    (Except.error e : Except ε α).map f = .error e := rfl

/-- C9: getTokenDecimals returns the registered decimals when the symbol is
in the token registry and exactly 18 when the symbol is unknown; it is a
pure total lookup with no failure mode. -/
theorem getTokenDecimals_default
    : (∀ symbol t, TOKENS.lookup symbol = some t →
        getTokenDecimals symbol = t.decimals) ∧
      (∀ symbol, TOKENS.lookup symbol = none →
        getTokenDecimals symbol = 18) := by
  constructor
  · intro symbol t h
    simp [getTokenDecimals, h]
  · intro symbol h
    simp [getTokenDecimals, h]

/-- Witness for C9: the registered symbol USDC yields its registry decimals
6, and the unregistered symbol SHIB yields the default 18. -/
theorem getTokenDecimals_default_witness :
    (TOKENS.lookup "SHIB" = none ∧ getTokenDecimals "SHIB" = 18) ∧
    getTokenDecimals "USDC" = 6 :=
  ⟨⟨rfl, getTokenDecimals_default.2 "SHIB" rfl⟩,
   getTokenDecimals_default.1 "USDC" _ rfl⟩

/-- C10: loadSessions is total over every state of the sessions file: an
absent file and a file whose content fails to JSON-parse (including the empty
file, which JSON.parse rejects) both yield the empty session map, a parseable
file yields its parsed map, and no case throws. -/
theorem loadSessions_total (parse : String → Option Sessions) :
    loadSessions .absent parse = [] ∧
    (∀ content, parse content = none →
      loadSessions (.present content) parse = []) ∧
    (∀ content sessions, parse content = some sessions →
      loadSessions (.present content) parse = sessions) := by
  refine ⟨rfl, ?_, ?_⟩
  · intro content h
    simp [loadSessions, h]
  · intro content sessions h
    simp [loadSessions, h]

/-- Witness for C10: a parse function rejecting everything (as JSON.parse
does on the empty string and on garbage) still yields the empty registry for
both an absent and a present-but-unparseable file. -/
theorem loadSessions_total_witness :
    loadSessions .absent (fun _ => none) = [] ∧
    loadSessions (.present "not json") (fun _ => none) = [] :=
  ⟨(loadSessions_total (fun _ => none)).1,
   (loadSessions_total (fun _ => none)).2.1 "not json" rfl⟩

/-- C2 (code bug): findAccount with the full chain id hint eip155:1 returns
an account whose chain id is eip155:10 — a prefix collision the function's
own doc comment ("matches exactly" for a full chain id) rules out. -/
theorem findAccount_prefix_collision :
    findAccount ["eip155:10:0xAbC"] (some "eip155:1") =
      some "eip155:10:0xAbC" ∧
    accountChainId "eip155:10:0xAbC" = "eip155:10" ∧
    ("eip155:10" : String) ≠ "eip155:1" := by
  refine ⟨by decide, by decide, by decide⟩

/-- C8 (amended): the encoders treat exactly the literal symbols ETH (EVM
branch) and SOL (Solana branch) as native, for every chain: with those
symbols the encoded transfer is identical to the one produced with the
symbol absent.  The chain's actual native symbol is never consulted, so on
Polygon or BSC the true native symbols POL and BNB do not get this
treatment. -/
theorem native_symbol_literal_dispatch (fromAddr toAddr : String)
    (amount : ℚ) (chain : String) (toAtaExists : Bool)
    (feesResult : Except Unit (List Int)) :
    sendEvmTx fromAddr toAddr (some "ETH") amount chain =
      sendEvmTx fromAddr toAddr none amount chain ∧
    sendSolanaInstrs fromAddr toAddr (some "SOL") amount chain toAtaExists
        feesResult =
      sendSolanaInstrs fromAddr toAddr none amount chain toAtaExists
        feesResult := by
  constructor
  · simp [sendEvmTx]
  · simp [sendSolanaInstrs, solanaBaseInstrs]

/-- Counterexample for C8: POL is the repository's own recorded native
symbol for Polygon (eip155:137), yet the EVM encoder treats a POL transfer
as an asset-standard transfer and fails with an unsupported-token error,
instead of producing the native transfer it produces when the symbol is
absent. -/
theorem native_symbol_dispatch_cex :
    EVM_CHAINS_native.lookup "eip155:137" = some "POL" ∧
    sendEvmTx "0xSENDER" "0xRECIPIENT" (some "POL") 1 "eip155:137" =
      .error "Token POL not supported on eip155:137" ∧
    sendEvmTx "0xSENDER" "0xRECIPIENT" (some "POL") 1 "eip155:137" ≠
      sendEvmTx "0xSENDER" "0xRECIPIENT" none 1 "eip155:137" := by
  refine ⟨rfl, rfl, ?_⟩
  have h : getTokenAddress "POL" "eip155:137" = none := rfl
  simp [sendEvmTx, h]

/-- C6: the bounded request produces exactly one outcome — a success value
or exactly one error; whenever the underlying request does not settle
strictly before timeoutMs (including never settling), the outcome is the
timeout-specific error; the orchestrator's catch reports any error outcome
as status rejected carrying the underlying message; and every liveness
notification is emitted strictly before the race settles — none after. -/
theorem requestWithTimeout_exactly_one
    (reqSettle : Option (Nat × Except String String))
    (timeoutMs pollIntervalMs : Nat) :
    ((∃ v, requestWithTimeout reqSettle timeoutMs = .ok v) ∨
      (∃ e, requestWithTimeout reqSettle timeoutMs = .error e)) ∧
    ¬((∃ v, requestWithTimeout reqSettle timeoutMs = .ok v) ∧
      (∃ e, requestWithTimeout reqSettle timeoutMs = .error e)) ∧
    ((∀ t r, reqSettle = some (t, r) → timeoutMs ≤ t) →
      requestWithTimeout reqSettle timeoutMs = .error timeoutMessage) ∧
    (∀ e, requestWithTimeout reqSettle timeoutMs = .error e →
      cmdSendTxCatch (.error e) =
        { status := "rejected", errorMsg := some e }) ∧
    (∀ x ∈ livenessEmissions pollIntervalMs (settleTime reqSettle timeoutMs),
      x < settleTime reqSettle timeoutMs) := by
  refine ⟨?_, ?_, ?_, ?_, ?_⟩
  · cases h : requestWithTimeout reqSettle timeoutMs with
    | ok v => exact Or.inl ⟨v, rfl⟩
    | error e => exact Or.inr ⟨e, rfl⟩
  · rintro ⟨⟨v, hv⟩, ⟨e, he⟩⟩
    rw [hv] at he
    exact Except.noConfusion he
  · intro h
    match reqSettle with
    | none => rfl
    | some (t, r) =>
      have ht := h t r rfl
      simp [requestWithTimeout, Nat.not_lt.mpr ht]
  · intro e _
    rfl
  · intro x hx
    unfold livenessEmissions at hx
    split at hx
    · simp at hx
    · simp only [List.mem_map, List.mem_filter] at hx
      obtain ⟨k, ⟨_, hk⟩, rfl⟩ := hx
      simp only [Bool.and_eq_true, decide_eq_true_eq] at hk
      exact hk.2

/-- Witness for C6: a request that never settles against the default
300000 ms timeout and 10000 ms poll interval yields the timeout error, the
orchestrator reports it as rejected with that message, and every liveness
emission precedes the settle time. -/
theorem requestWithTimeout_exactly_one_witness :
    requestWithTimeout none 300000 = .error timeoutMessage ∧
    cmdSendTxCatch (.error timeoutMessage) =
      { status := "rejected", errorMsg := some timeoutMessage } ∧
    ∀ x ∈ livenessEmissions 10000 (settleTime none 300000),
      x < settleTime none 300000 := by
  have h := requestWithTimeout_exactly_one none 300000 10000
  exact ⟨h.2.2.1 (by intro t r ht; cases ht),
    h.2.2.2.1 timeoutMessage (h.2.2.1 (by intro t r ht; cases ht)),
    h.2.2.2.2⟩

/-- C7: when the recent-prioritization-fee fetch fails, the Solana encoder
returns exactly the base instruction list — the failure never propagates —
and no successful base instruction list ever contains a compute-unit-price
instruction, so the transfer goes out without one. -/
theorem sendSolana_fee_failure_swallowed (fromAddr toAddr : String)
    (token : Option String) (amount : ℚ) (chain : String)
    (toAtaExists : Bool) :
    sendSolanaInstrs fromAddr toAddr token amount chain toAtaExists
        (.error ()) =
      solanaBaseInstrs fromAddr toAddr token amount chain toAtaExists ∧
    (∀ l, solanaBaseInstrs fromAddr toAddr token amount chain toAtaExists =
        .ok l →
      ∀ i ∈ l, ∀ p, i ≠ SolInstr.setComputeUnitPrice p) := by
  constructor
  · unfold sendSolanaInstrs
    cases solanaBaseInstrs fromAddr toAddr token amount chain toAtaExists with
    | ok l => rfl
    | error e => rfl
  · intro l hl i hi p
    unfold solanaBaseInstrs at hl
    split at hl
    · exact Except.noConfusion hl
    split at hl
    · split at hl
      · simp only [Except.ok.injEq] at hl
        subst hl
        simp only [List.mem_singleton] at hi
        subst hi
        simp
      · split at hl
        · exact Except.noConfusion hl
        · simp only [Except.ok.injEq] at hl
          subst hl
          rcases List.mem_append.mp hi with hmem | hmem
          · rcases toAtaExists with _ | _
            · simp only [Bool.false_eq_true, if_neg, List.mem_singleton,
                reduceIte] at hmem
              subst hmem
              simp
            · simp at hmem
          · simp only [List.mem_singleton] at hmem
            subst hmem
            simp
    · simp only [Except.ok.injEq] at hl
      subst hl
      simp only [List.mem_singleton] at hi
      subst hi
      simp

/-- Witness for C7: a native transfer on Solana mainnet with a failing fee
fetch encodes to the bare system-transfer instruction list, which contains
no compute-unit-price instruction. -/
theorem sendSolana_fee_failure_swallowed_witness :
    sendSolanaInstrs "FROM" "TO" none 1
        "solana:5eykt4UsFv8P8NJdTREpY1vzqKqZKvdp" true (.error ()) =
      solanaBaseInstrs "FROM" "TO" none 1
        "solana:5eykt4UsFv8P8NJdTREpY1vzqKqZKvdp" true ∧
    ∀ i ∈ [SolInstr.systemTransfer "FROM" "TO"
        (jsRound (1 * LAMPORTS_PER_SOL))],
      ∀ p, i ≠ SolInstr.setComputeUnitPrice p :=
  ⟨(sendSolana_fee_failure_swallowed "FROM" "TO" none 1
      "solana:5eykt4UsFv8P8NJdTREpY1vzqKqZKvdp" true).1,
   (sendSolana_fee_failure_swallowed "FROM" "TO" none 1
      "solana:5eykt4UsFv8P8NJdTREpY1vzqKqZKvdp" true).2 _ rfl⟩

/-- C3 (amended): for every non-empty list of strictly positive observed
prioritization fees, the Solana encoder prepends a compute-unit-price
instruction whose price is the element at index length / 2 of the
ascending-sorted list — the middle element for odd counts and the UPPER of
the two middle elements for even counts; fees that are not strictly positive
are discarded before the median is taken, and if no positive fee remains no
instruction is prepended. -/
theorem sendSolana_priority_fee_upper_median (fromAddr toAddr : String)
    (amount : ℚ) (chain rpc : String) (fees : List Int)
    (hchain : SOLANA_RPC.lookup chain = some rpc)
    (hne : fees ≠ []) (hpos : ∀ x ∈ fees, 0 < x) :
    sendSolanaInstrs fromAddr toAddr none amount chain true (.ok fees) =
      .ok [SolInstr.setComputeUnitPrice
             ((fees.insertionSort (· ≤ ·)).getD (fees.length / 2) 0),
           SolInstr.systemTransfer fromAddr toAddr
             (jsRound (amount * LAMPORTS_PER_SOL))] := by
  have hfilter : fees.filter (fun f => decide (0 < f)) = fees := by
    rw [List.filter_eq_self]
    intro a ha
    simpa using hpos a ha
  have hlen : (fees.insertionSort (· ≤ ·)).length = fees.length :=
    List.length_insertionSort _ _
  have hpos' : 0 < (fees.insertionSort (· ≤ ·)).length := by
    rw [hlen]
    exact List.length_pos.mpr hne
  have hidx : fees.length / 2 < (fees.insertionSort (· ≤ ·)).length := by
    rw [hlen]
    exact Nat.div_lt_self (List.length_pos.mpr hne) one_lt_two
  unfold sendSolanaInstrs solanaBaseInstrs
  rw [hchain]
  rw [exceptMap_ok]
  unfold addPriorityFee
  dsimp only
  simp only [hfilter]
  rw [dif_pos hpos']
  rw [List.getD_eq_getElem _ _ hidx]
  simp only [List.get_eq_getElem, hlen, hfilter]

/-- Witness for C3 (amended): fees 3, 1, 2 on Solana mainnet — the sorted
list is 1, 2, 3 and the prepended price is the middle element. -/
theorem sendSolana_priority_fee_upper_median_witness :
    sendSolanaInstrs "FROM" "TO" none 1
        "solana:5eykt4UsFv8P8NJdTREpY1vzqKqZKvdp" true (.ok [3, 1, 2]) =
      .ok [SolInstr.setComputeUnitPrice
             (([3, 1, 2].insertionSort (· ≤ ·)).getD (([3, 1, 2] :
                List Int).length / 2) 0),
           SolInstr.systemTransfer "FROM" "TO"
             (jsRound (1 * LAMPORTS_PER_SOL))] :=
  sendSolana_priority_fee_upper_median "FROM" "TO" 1
    "solana:5eykt4UsFv8P8NJdTREpY1vzqKqZKvdp"
    "https://api.mainnet-beta.solana.com" [3, 1, 2] rfl (by decide)
    (by decide)

/-- Counterexample for C3: on the even-length fee list 1, 2 the encoder
prepends price 2 — the element at sorted index length / 2, the UPPER of the
two middle elements — while the claim's lower-middle median of that list
is 1. -/
theorem sendSolana_priority_fee_median_cex :
    sendSolanaInstrs "FROM" "TO" none 1
        "solana:5eykt4UsFv8P8NJdTREpY1vzqKqZKvdp" true (.ok [1, 2]) =
      .ok [SolInstr.setComputeUnitPrice 2,
           SolInstr.systemTransfer "FROM" "TO"
             (jsRound (1 * LAMPORTS_PER_SOL))] ∧
    medianLowerSpec [1, 2] = 1 ∧ (2 : Int) ≠ 1 :=
  ⟨rfl, by decide, by decide⟩

/-- C5: for an asset-standard Solana transfer with a registered mint, the
encoder emits — after the optional compute-unit-price prefix — the
associated-account-creation instruction, funded by the sender, immediately
before the token-transfer instruction exactly when the recipient's
associated token account does not exist; when it exists, no creation
instruction is emitted. -/
theorem sendSolana_ata_creation_order
    (fromAddr toAddr t chain rpc mintAddr : String) (amount : ℚ)
    (toAtaExists : Bool) (feesResult : Except Unit (List Int))
    (hchain : SOLANA_RPC.lookup chain = some rpc)
    (ht : ¬(t = "" ∨ t = "SOL"))
    (hmint : getTokenAddress t chain = some mintAddr) :
    ∃ pre, (pre = [] ∨ ∃ p, pre = [SolInstr.setComputeUnitPrice p]) ∧
      sendSolanaInstrs fromAddr toAddr (some t) amount chain toAtaExists
          feesResult =
        .ok (pre ++
          (if toAtaExists then []
           else [SolInstr.createAssociatedTokenAccountInstruction fromAddr
                   (getAssociatedTokenAddressSync mintAddr toAddr) toAddr
                   mintAddr]) ++
          [SolInstr.createTransferInstruction
            (getAssociatedTokenAddressSync mintAddr fromAddr)
            (getAssociatedTokenAddressSync mintAddr toAddr) fromAddr
            (jsRound (amount * 10 ^ getTokenDecimals t))]) := by
  unfold sendSolanaInstrs solanaBaseInstrs
  rw [hchain]
  simp only [if_neg ht, hmint, exceptMap_ok]
  unfold addPriorityFee
  rcases feesResult with _ | fees
  · exact ⟨[], Or.inl rfl, by dsimp only; simp⟩
  · dsimp only
    by_cases hlen :
        0 < ((fees.filter (fun f => decide (0 < f))).insertionSort
          (· ≤ ·)).length
    · refine ⟨[SolInstr.setComputeUnitPrice
          (((fees.filter (fun f => decide (0 < f))).insertionSort
              (· ≤ ·)).get
            ⟨((fees.filter (fun f => decide (0 < f))).insertionSort
                (· ≤ ·)).length / 2,
              Nat.div_lt_self hlen one_lt_two⟩)], Or.inr ⟨_, rfl⟩, ?_⟩
      rw [dif_pos hlen]
      simp
    · exact ⟨[], Or.inl rfl, by rw [dif_neg hlen]; simp⟩

/-- Witness for C5: a USDC transfer on Solana mainnet with a failing fee
fetch and a missing recipient associated account yields the creation
instruction (funded by the sender) immediately before the transfer
instruction. -/
theorem sendSolana_ata_creation_order_witness :
    ∃ pre, (pre = [] ∨ ∃ p, pre = [SolInstr.setComputeUnitPrice p]) ∧
      sendSolanaInstrs "FROM" "TO" (some "USDC") 5
          "solana:5eykt4UsFv8P8NJdTREpY1vzqKqZKvdp" false (.error ()) =
        .ok (pre ++
          (if false then []
           else [SolInstr.createAssociatedTokenAccountInstruction "FROM"
                   (getAssociatedTokenAddressSync
                     "EPjFWdd5AufqSSqeM2qN1xzybapC8G4wEGGkZwyTDt1v" "TO")
                   "TO" "EPjFWdd5AufqSSqeM2qN1xzybapC8G4wEGGkZwyTDt1v"]) ++
          [SolInstr.createTransferInstruction
            (getAssociatedTokenAddressSync
              "EPjFWdd5AufqSSqeM2qN1xzybapC8G4wEGGkZwyTDt1v" "FROM")
            (getAssociatedTokenAddressSync
              "EPjFWdd5AufqSSqeM2qN1xzybapC8G4wEGGkZwyTDt1v" "TO") "FROM"
            (jsRound (5 * 10 ^ getTokenDecimals "USDC"))]) :=
  sendSolana_ata_creation_order "FROM" "TO" "USDC"
    "solana:5eykt4UsFv8P8NJdTREpY1vzqKqZKvdp"
    "https://api.mainnet-beta.solana.com"
    "EPjFWdd5AufqSSqeM2qN1xzybapC8G4wEGGkZwyTDt1v" 5 false (.error ())
    rfl (by decide) rfl

theorem toHexDigits_length_le :
    ∀ (k : ℕ), 0 < k → ∀ n, n < 16 ^ k → (toHexDigits n).length ≤ k := by
  intro k
  induction k with
  | zero => omega
  | succ k ih =>
    intro _ n hn
    rw [toHexDigits]
    split
    · simp
    · rename_i h16
      have hk : 0 < k := by
        rcases Nat.eq_zero_or_pos k with hk0 | hk0
        · subst hk0
          simp at hn
          omega
        · exact hk0
      have hdiv : n / 16 < 16 ^ k := by
        rw [Nat.div_lt_iff_lt_mul (by norm_num : (0 : ℕ) < 16)]
        calc n < 16 ^ (k + 1) := hn
          _ = 16 ^ k * 16 := by ring
      have hrec := ih hk (n / 16) hdiv
      simp only [List.length_append, List.length_singleton]
      omega

theorem padStart_length (s : String) (n : Nat) (c : Char)
    (h : s.length ≤ n) : (padStart s n c).length = n := by
  show (List.replicate (n - s.length) c ++ s.data).length = n
  rw [List.length_append, List.length_replicate]
  have hd : s.data.length = s.length := rfl
  omega

theorem jsReplaceFirst_prefix_ox (s : String) :
    jsReplaceFirst ("0x" ++ s) "0x" = s := by
  show String.mk (stripFirst ['0', 'x'] ('0' :: 'x' :: s.data)) = s
  simp [stripFirst, List.isPrefixOf]

theorem jsRound_centi_e18 : jsRound ((1 / 100 : ℚ) * 10 ^ 18) = 10 ^ 16 := by
  norm_num [jsRound, Rat.floor]

theorem intToHex_pow16 : intToHex (10 ^ 16) = "2386f26fc10000" := by
  rw [intToHex, if_neg (by norm_num)]
  have h : ((10 : ℤ) ^ 16).toNat = 10000000000000000 := by
    rfl
  rw [h]
  show String.mk (toHexDigits 10000000000000000) = "2386f26fc10000"
  simp [toHexDigits]
  decide

/-- C1: for every EVM asset-standard transfer with a registered token and a
standard 0x-prefixed 40-hex-digit recipient, the encoded calldata is the
selector 0xa9059cbb followed by the recipient left-zero-padded to 32 bytes
followed by the amount's hex left-zero-padded to 32 bytes; its length is
exactly 2 + 2 * (4 + 32 + 32) characters — a 68-byte payload — for every
amount whose base-unit value fits in 256 bits; and the transaction targets
the token contract, not the recipient. -/
theorem sendEvm_token_calldata (fromAddr rest t chain tokenAddr : String)
    (amount : ℚ)
    (ht : ¬(t = "" ∨ t = "ETH"))
    (haddr : getTokenAddress t chain = some tokenAddr)
    (hrest : rest.length = 40)
    (hnn : 0 ≤ jsRound (amount * 10 ^ getTokenDecimals t))
    (hlt : (jsRound (amount * 10 ^ getTokenDecimals t)).toNat < 2 ^ 256)
    (hne : tokenAddr ≠ "0x" ++ rest) :
    ∃ tx, sendEvmTx fromAddr ("0x" ++ rest) (some t) amount chain =
        .ok tx ∧
      tx.data = some ("0xa9059cbb" ++ padStart rest 64 '0' ++
        padStart
          (natToHex (jsRound (amount * 10 ^ getTokenDecimals t)).toNat)
          64 '0') ∧
      (∀ d, tx.data = some d → d.length = 138) ∧
      tx.«to» = tokenAddr ∧ tx.«to» ≠ "0x" ++ rest ∧ tx.value = none := by
  have hhexlen :
      (natToHex (jsRound (amount * 10 ^ getTokenDecimals t)).toNat).length
        ≤ 64 := by
    have h2 : (2 : ℕ) ^ 256 = 16 ^ 64 := by norm_num
    exact toHexDigits_length_le 64 (by norm_num) _ (by rw [← h2]; exact hlt)
  have hdata : sendEvmTx fromAddr ("0x" ++ rest) (some t) amount chain =
      .ok { fromAddr := fromAddr, «to» := tokenAddr, value := none,
            data := some ("0xa9059cbb" ++ padStart rest 64 '0' ++
              padStart
                (natToHex
                  (jsRound (amount * 10 ^ getTokenDecimals t)).toNat)
                64 '0') } := by
    unfold sendEvmTx
    dsimp only
    rw [if_neg ht, haddr]
    dsimp only
    rw [jsReplaceFirst_prefix_ox, intToHex,
      if_neg (by omega : ¬ jsRound (amount * 10 ^ getTokenDecimals t) < 0)]
  refine ⟨_, hdata, rfl, ?_, rfl, hne, rfl⟩
  intro d hd
  obtain rfl : _ = d := (Option.some.injEq _ _).mp hd
  rw [String.length_append, String.length_append,
    padStart_length _ _ _ (by omega),
    padStart_length _ _ _ hhexlen]
  rfl

/-- Witness for C1: 5 USDC (6 registry decimals, so 5000000 base units) to a
40-hex-digit recipient on Ethereum mainnet targets the USDC contract with
68-byte calldata. -/
theorem sendEvm_token_calldata_witness :
    ∃ tx, sendEvmTx "0xME"
        ("0x" ++ "1111111111111111111111111111111111111111") (some "USDC")
        5 "eip155:1" = .ok tx ∧
      tx.data = some ("0xa9059cbb" ++
        padStart "1111111111111111111111111111111111111111" 64 '0' ++
        padStart
          (natToHex (jsRound (5 * 10 ^ getTokenDecimals "USDC")).toNat)
          64 '0') ∧
      (∀ d, tx.data = some d → d.length = 138) ∧
      tx.«to» = "0xA0b86991c6218b36c1d19D4a2e9Eb0cE3606eB48" ∧
      tx.«to» ≠ "0x" ++ "1111111111111111111111111111111111111111" ∧
      tx.value = none := by
  have hj : jsRound (5 * 10 ^ getTokenDecimals "USDC") = 5000000 := by
    have hd6 : getTokenDecimals "USDC" = 6 := rfl
    rw [hd6]
    norm_num [jsRound, Rat.floor]
  exact sendEvm_token_calldata "0xME"
    "1111111111111111111111111111111111111111" "USDC" "eip155:1"
    "0xA0b86991c6218b36c1d19D4a2e9Eb0cE3606eB48" 5 (by decide) rfl
    (by decide) (by rw [hj]; norm_num) (by rw [hj]; norm_num) (by decide)

/-- C4: every native EVM transfer (token argument absent, or equal to the
literal ETH) carries no calldata and a value field equal to 0x followed by
the hex of round(amount times ten to the 18); in particular 0.01 on an
18-decimal chain yields exactly 10 to the 16 base units, hex 2386f26fc10000,
with no data field. -/
theorem sendEvm_native_value :
    (∀ fromAddr toAddr amount chain,
      sendEvmTx fromAddr toAddr none amount chain =
        .ok { fromAddr := fromAddr, «to» := toAddr,
              value := some ("0x" ++ intToHex (jsRound (amount * 10 ^ 18))),
              data := none }) ∧
    (∀ fromAddr toAddr amount chain,
      sendEvmTx fromAddr toAddr (some "ETH") amount chain =
        .ok { fromAddr := fromAddr, «to» := toAddr,
              value := some ("0x" ++ intToHex (jsRound (amount * 10 ^ 18))),
              data := none }) ∧
    jsRound ((1 / 100 : ℚ) * 10 ^ 18) = 10 ^ 16 ∧
    sendEvmTx "0xSENDER" "0xRECIPIENT" none (1 / 100) "eip155:1" =
      .ok { fromAddr := "0xSENDER", «to» := "0xRECIPIENT",
            value := some "0x2386f26fc10000", data := none } := by
  refine ⟨fun fromAddr toAddr amount chain => rfl,
    fun fromAddr toAddr amount chain => by simp [sendEvmTx],
    jsRound_centi_e18, ?_⟩
  have e1 : sendEvmTx "0xSENDER" "0xRECIPIENT" none (1 / 100) "eip155:1" =
      .ok { fromAddr := "0xSENDER", «to» := "0xRECIPIENT",
            value := some
              ("0x" ++ intToHex (jsRound ((1 / 100 : ℚ) * 10 ^ 18))),
            data := none } := rfl
  rw [e1, jsRound_centi_e18, intToHex_pow16]
  rfl
